import Mathlib

/-!
# PiTiVi: `pitivi-sourceitem.h`

A verification development over the single declaration of
`src/pitivi-sourceitem.h`:

```c
struct _PitiviSourceItem
{
  gint64           id;
  PitiviSourceFile *srcfile;
  GnlObject        *gnlobject;
};
```

The header declares a record and nothing else: no function, no constructor
and no collection type.  The embedding below is therefore a record of three
fields, together with the value spaces of the field types.
-/

namespace Pitivi

/-! ## Field types -/

/-- Smallest value of a `gint64` (glib's `G_MININT64`). -/
def G_MININT64 : Int := -0x8000000000000000

/-- Largest value of a `gint64` (glib's `G_MAXINT64`). -/
def G_MAXINT64 : Int := 0x7fffffffffffffff

/-- Modelled from the spec: the typedef of `gint64` lives in glib
(`<gst/gst.h>` pulls it in), not under `src/`; the spec gives the type of
`id` as a 64-bit signed integer.  A value is a mathematical integer together
with the two bounds of the 64-bit two's complement range. -/
structure gint64 where
  /-- The integer the 64 bits stand for. -/
  val : Int
  /-- Lower bound of the range. -/
  hmin : G_MININT64 ≤ val
  /-- Upper bound of the range. -/
  hmax : val ≤ G_MAXINT64
  deriving DecidableEq

/-- The struct types the header only names: `PitiviSourceFile` comes from
`pitivi-sourcefile.h` and `GnlObject` from `<gnl/gnltimeline.h>`.  Both are
used through pointers alone, so their contents play no part here. -/
inductive StructTag where
  | PitiviSourceFile
  | GnlObject
  deriving DecidableEq, Repr

/-- A C pointer to an object of the struct type `t`: an address, where the
address `0` is the null pointer. -/
structure Ptr (t : StructTag) where
  /-- The address held by the pointer. -/
  addr : Nat
  deriving DecidableEq, Repr

/-- The null pointer (`NULL`). -/
def Ptr.null {t : StructTag} : Ptr t := ⟨0⟩

/-! ## The record -/

/-- The record `struct _PitiviSourceItem` (typedef `PitiviSourceItem`), field
for field and in the order of the header. -/
structure PitiviSourceItem where
  /-- The field `gint64 id`. -/
  id : gint64
  /-- The field `PitiviSourceFile *srcfile`. -/
  srcfile : Ptr StructTag.PitiviSourceFile
  /-- The field `GnlObject *gnlobject`. -/
  gnlobject : Ptr StructTag.GnlObject
  deriving DecidableEq

/-! ## The record and its fields -/

/-- Claim C1: a `PitiviSourceItem` is the record of its three fields `id`,
`srcfile` and `gnlobject` and of nothing else: every item is rebuilt from
these three fields, and two items are equal if and only if they agree on all
three. -/
theorem PitiviSourceItem_eq_iff_fields (a b : PitiviSourceItem) :
    a = PitiviSourceItem.mk a.id a.srcfile a.gnlobject ∧
    (a = b ↔ a.id = b.id ∧ a.srcfile = b.srcfile ∧ a.gnlobject = b.gnlobject) := by
  refine ⟨rfl, ?_, ?_⟩
  · intro h
    subst h
    exact ⟨rfl, rfl, rfl⟩
  · rintro ⟨h₁, h₂, h₃⟩
    cases a
    cases b
    simp only at h₁ h₂ h₃
    subst h₁ h₂ h₃
    rfl

/-! ## No invariant on the fields -/

/-- Claim C4: the record has no invariant and no construction rule.  For
every integer `n` of the 64-bit signed range and every pair of pointers `s`
and `g` (the null pointer included), there is an item whose fields are
exactly `n`, `s` and `g`; in particular every such id occurs with both
pointers null, with either one null, and with neither. -/
theorem PitiviSourceItem_no_invariant (n : Int) (hlo : -2 ^ 63 ≤ n)
    (hhi : n ≤ 2 ^ 63 - 1) (s : Ptr StructTag.PitiviSourceFile)
    (g : Ptr StructTag.GnlObject) :
    (∃ x : PitiviSourceItem, x.id.val = n ∧ x.srcfile = s ∧ x.gnlobject = g) ∧
    (∃ x : PitiviSourceItem,
      x.id.val = n ∧ x.srcfile = Ptr.null ∧ x.gnlobject = g) ∧
    (∃ x : PitiviSourceItem,
      x.id.val = n ∧ x.srcfile = s ∧ x.gnlobject = Ptr.null) ∧
    (∃ x : PitiviSourceItem,
      x.id.val = n ∧ x.srcfile = Ptr.null ∧ x.gnlobject = Ptr.null) := by
  have h₁ : G_MININT64 ≤ n := by
    simp only [G_MININT64]
    norm_num at hlo
    omega
  have h₂ : n ≤ G_MAXINT64 := by
    simp only [G_MAXINT64]
    norm_num at hhi
    omega
  exact ⟨⟨⟨⟨n, h₁, h₂⟩, s, g⟩, rfl, rfl, rfl⟩,
    ⟨⟨⟨n, h₁, h₂⟩, Ptr.null, g⟩, rfl, rfl, rfl⟩,
    ⟨⟨⟨n, h₁, h₂⟩, s, Ptr.null⟩, rfl, rfl, rfl⟩,
    ⟨⟨⟨n, h₁, h₂⟩, Ptr.null, Ptr.null⟩, rfl, rfl, rfl⟩⟩

/-- Witness of `PitiviSourceItem_no_invariant`: the smallest id `-2^63`
with a null `srcfile` and a `gnlobject` at address `4096` is an item. -/
theorem PitiviSourceItem_no_invariant_witness :
    (-2 ^ 63 ≤ (-9223372036854775808 : Int) ∧
      (-9223372036854775808 : Int) ≤ 2 ^ 63 - 1) ∧
    ∃ x : PitiviSourceItem, x.id.val = -9223372036854775808 ∧
      x.srcfile = Ptr.null ∧ x.gnlobject = ⟨4096⟩ :=
  ⟨⟨by decide, by decide⟩,
    (PitiviSourceItem_no_invariant (-9223372036854775808) (by decide) (by decide)
      Ptr.null ⟨4096⟩).1⟩

end Pitivi
